import Mathlib

/-!
Verification of `assets/scripts/ros2_get_filepath_from_package.py`.

The script reads `sys.argv`, checks whether `args[1]` is an existing regular
file (`os.path.isfile`), and either prints `args[1]` verbatim (single-file
mode) or prints the result of the external lookup
`get_share_file_path_from_package(package_name=args[1], file_name=args[2])`
(pkg-file mode), in both cases with `end=""` (no trailing newline).

The embedding makes the script's interactions with its environment explicit:
- `Env.isfile` models `os.path.isfile` (existence of a regular file);
- `Env.look_up` models the external `get_share_file_path_from_package`
  capability, which either returns a path string or raises an error;
- list indexing `args[i]` is fallible (Python raises `IndexError` when the
  index is out of range), modelled by `getIndex`;
- side effects are recorded in an ordered trace of `Effect`s: each write to
  standard output and each invocation of the external lookup.

`main` returns the termination result (normal or a raised error) together
with the trace of effects performed before terminating.
-/

namespace Ros2GetFilepath

/-- The ambient environment of a run: the filesystem's regular-file test and
the external package-resource lookup (which may raise an error). -/
structure Env where
  isfile : String → Bool
  look_up : String → String → Except String String

/-- Observable side effects of a run, in order: writes to standard output and
invocations of the external lookup. -/
inductive Effect where
  | write (s : String)
  | lookupCall (pkg file : String)
deriving DecidableEq, Repr

/-- Errors that can terminate the process abnormally: a Python `IndexError`
from `args[i]`, or an error raised by the external lookup, carried verbatim. -/
inductive Err where
  | indexError (idx : Nat)
  | lookupError (msg : String)
deriving DecidableEq, Repr

/-- Python list indexing `args[i]` for a nonnegative index: returns the
element, or raises `IndexError` when the index is out of range. -/
def getIndex (args : List String) (i : Nat) : Except Err String :=
  match args.get? i with
  | some s => Except.ok s
  | none => Except.error (Err.indexError i)

/-- Python `print(s, end=e)`: a single write of `s ++ e` to standard output.
The script always passes `end=""`. -/
def pyPrint (s e : String) : Effect := Effect.write (s ++ e)

/-- The script's `main(args)`, translated line by line:

    mode = 'single file'
    if not os.path.isfile(args[1]):
        mode = 'pkg file'
    if mode == 'single file':
        print(args[1], end="")
    else:
        print(get_share_file_path_from_package(
                package_name=args[1], file_name=args[2]), end="")

Returns the termination result and the ordered effect trace. -/
def main (env : Env) (args : List String) : Except Err Unit × List Effect :=
  match getIndex args 1 with
  | Except.error err => (Except.error err, [])
  | Except.ok a1 =>
    let mode : String := "single file"
    let mode : String := if !(env.isfile a1) then "pkg file" else mode
    if mode = "single file" then
      (Except.ok (), [pyPrint a1 ""])
    else
      match getIndex args 2 with
      | Except.error err => (Except.error err, [])
      | Except.ok a2 =>
        match env.look_up a1 a2 with
        | Except.ok v =>
            (Except.ok (), [Effect.lookupCall a1 a2, pyPrint v ""])
        | Except.error e =>
            (Except.error (Err.lookupError e), [Effect.lookupCall a1 a2])

/-- The strings written to standard output, in order. -/
def writesOf (tr : List Effect) : List String :=
  tr.filterMap fun e =>
    match e with
    | Effect.write s => some s
    | _ => none

/-- The full standard-output text of a run. -/
def stdoutOf (tr : List Effect) : String := String.join (writesOf tr)

/-- How many times the external lookup was invoked during a run. -/
def countLookups (tr : List Effect) : Nat :=
  (tr.filter fun e =>
    match e with
    | Effect.lookupCall _ _ => true
    | _ => false).length

/-- A concrete environment for witnesses: exactly one regular file exists,
and the lookup resolves exactly one (package, file) pair. -/
def envA : Env where
  isfile := fun s => s == "/tmp/existing_file.txt"
  look_up := fun p f =>
    if p == "my_package" && f == "robot.launch" then
      Except.ok "/opt/ros/share/my_package/robot.launch"
    else
      Except.error "package or file not found"

end Ros2GetFilepath

namespace Ros2GetFilepath

/-- Joining a one-element list of strings gives back the string. -/
theorem join_singleton (s : String) : String.join [s] = s := by
  simp [String.join]

/-- C1: if `args[1]` names an existing regular file, the run takes
single-file mode and writes exactly the string `args[1]`, unchanged, to
standard output, then terminates normally. -/
theorem c1_single_file_identity (env : Env) (args : List String) (x : String)
    (h1 : args.get? 1 = some x) (h2 : env.isfile x = true) :
    main env args = (Except.ok (), [Effect.write x]) := by
  rw [List.get?_eq_getElem?] at h1
  simp [main, getIndex, h1, h2, pyPrint]

/-- C1 witness: a concrete run in single-file mode. -/
theorem c1_witness :
    main envA ["prog", "/tmp/existing_file.txt"] =
      (Except.ok (), [Effect.write "/tmp/existing_file.txt"]) :=
  c1_single_file_identity envA ["prog", "/tmp/existing_file.txt"]
    "/tmp/existing_file.txt" (by decide) (by decide)

/-- C2: if `args[1]` is present but not an existing regular file and
`args[2]` is present, the run takes pkg-file mode, invokes the external
lookup on `(args[1], args[2])`, and writes exactly the value the lookup
returns, unaltered. -/
theorem c2_pkg_file_delegation (env : Env) (args : List String)
    (p f v : String)
    (h1 : args.get? 1 = some p) (h2 : env.isfile p = false)
    (h3 : args.get? 2 = some f) (h4 : env.look_up p f = Except.ok v) :
    main env args = (Except.ok (), [Effect.lookupCall p f, Effect.write v]) := by
  rw [List.get?_eq_getElem?] at h1 h3
  simp [main, getIndex, h1, h2, h3, h4, pyPrint]

/-- C2 witness: a concrete run in pkg-file mode with a successful lookup. -/
theorem c2_witness :
    main envA ["prog", "my_package", "robot.launch"] =
      (Except.ok (), [Effect.lookupCall "my_package" "robot.launch",
        Effect.write "/opt/ros/share/my_package/robot.launch"]) :=
  c2_pkg_file_delegation envA ["prog", "my_package", "robot.launch"]
    "my_package" "robot.launch" "/opt/ros/share/my_package/robot.launch"
    (by decide) (by decide) (by decide) rfl

/-- C3: if the argument list has length exactly 2 and `args[1]` is not an
existing file, the run raises an index error on `args[2]` and terminates
abnormally. -/
theorem c3_missing_arg2 (env : Env) (args : List String) (p : String)
    (hlen : args.length = 2)
    (h1 : args.get? 1 = some p) (h2 : env.isfile p = false) :
    main env args = (Except.error (Err.indexError 2), []) := by
  have h3 : args.get? 2 = none := List.get?_eq_none.mpr (by omega)
  rw [List.get?_eq_getElem?] at h1 h3
  simp [main, getIndex, h1, h2, h3]

/-- C3 witness: a concrete two-element run in pkg-file mode. -/
theorem c3_witness :
    main envA ["prog", "my_package"] =
      (Except.error (Err.indexError 2), []) :=
  c3_missing_arg2 envA ["prog", "my_package"] "my_package"
    (by decide) (by decide) (by decide)

/-- C4: if `args[1]` is absent (only the program name is given), the run
raises an index error on `args[1]`, terminating abnormally with no output
and no other effect. -/
theorem c4_missing_arg1 (env : Env) (args : List String)
    (h : args.get? 1 = none) :
    main env args = (Except.error (Err.indexError 1), []) := by
  rw [List.get?_eq_getElem?] at h
  simp [main, getIndex, h]

/-- C4 witness: a concrete run with only the program name. -/
theorem c4_witness :
    main envA ["prog"] = (Except.error (Err.indexError 1), []) :=
  c4_missing_arg1 envA ["prog"] (by decide)

/-- C5: in pkg-file mode with both arguments present, an error raised by the
external lookup propagates verbatim to the process boundary after the single
lookup invocation, and the run succeeds if and only if the lookup returns a
value: there is no retry, fallback, or local recovery. -/
theorem c5_error_propagation (env : Env) (args : List String) (p f : String)
    (h1 : args.get? 1 = some p) (h2 : env.isfile p = false)
    (h3 : args.get? 2 = some f) :
    (∀ e, env.look_up p f = Except.error e →
        main env args =
          (Except.error (Err.lookupError e), [Effect.lookupCall p f])) ∧
    ((main env args).1 = Except.ok () ↔ ∃ v, env.look_up p f = Except.ok v) := by
  rw [List.get?_eq_getElem?] at h1 h3
  constructor
  · intro e he
    simp [main, getIndex, h1, h2, h3, he]
  · cases hv : env.look_up p f with
    | ok v =>
        simp [main, getIndex, h1, h2, h3, hv]
    | error e =>
        simp [main, getIndex, h1, h2, h3, hv]

/-- C5 witness: a concrete run where the lookup raises and its error is
carried to the process boundary unchanged. -/
theorem c5_witness :
    main envA ["prog", "nonexistent_pkg", "missing.xml"] =
      (Except.error (Err.lookupError "package or file not found"),
        [Effect.lookupCall "nonexistent_pkg" "missing.xml"]) :=
  (c5_error_propagation envA ["prog", "nonexistent_pkg", "missing.xml"]
    "nonexistent_pkg" "missing.xml" (by decide) (by decide) (by decide)).1
    "package or file not found" rfl

/-- C6: on every successful run the full standard-output text is exactly the
resolved path string — `args[1]` in single-file mode, the lookup's value in
pkg-file mode — with no trailing newline or other decoration. -/
theorem c6_no_decoration (env : Env) (args : List String)
    (h : (main env args).1 = Except.ok ()) :
    (∃ x, args.get? 1 = some x ∧ env.isfile x = true ∧
        stdoutOf (main env args).2 = x) ∨
    (∃ p f v, args.get? 1 = some p ∧ env.isfile p = false ∧
        args.get? 2 = some f ∧ env.look_up p f = Except.ok v ∧
        stdoutOf (main env args).2 = v) := by
  cases h1 : args.get? 1 with
  | none =>
    exfalso
    have h1' := h1; rw [List.get?_eq_getElem?] at h1'
    simp [main, getIndex, h1'] at h
  | some a1 =>
    have h1' := h1; rw [List.get?_eq_getElem?] at h1'
    by_cases h2 : env.isfile a1
    · left
      refine ⟨a1, rfl, h2, ?_⟩
      simp [main, getIndex, h1', h2, pyPrint, stdoutOf, writesOf, join_singleton]
    · have h2' : env.isfile a1 = false := eq_false_of_ne_true h2
      right
      cases h3 : args.get? 2 with
      | none =>
        exfalso
        have h3' := h3; rw [List.get?_eq_getElem?] at h3'
        simp [main, getIndex, h1', h2', h3'] at h
      | some a2 =>
        have h3' := h3; rw [List.get?_eq_getElem?] at h3'
        cases h4 : env.look_up a1 a2 with
        | ok v =>
          refine ⟨a1, a2, v, rfl, h2', rfl, h4, ?_⟩
          simp [main, getIndex, h1', h2', h3', h4, pyPrint, stdoutOf, writesOf,
            join_singleton]
        | error e =>
          exfalso
          simp [main, getIndex, h1', h2', h3', h4] at h

/-- C6 witness: a concrete successful run whose output text is exactly the
literal path. -/
theorem c6_witness :
    (∃ x, (["prog", "/tmp/existing_file.txt"] : List String).get? 1 = some x ∧
        envA.isfile x = true ∧
        stdoutOf (main envA ["prog", "/tmp/existing_file.txt"]).2 = x) ∨
    (∃ p f v,
        (["prog", "/tmp/existing_file.txt"] : List String).get? 1 = some p ∧
        envA.isfile p = false ∧
        (["prog", "/tmp/existing_file.txt"] : List String).get? 2 = some f ∧
        envA.look_up p f = Except.ok v ∧
        stdoutOf (main envA ["prog", "/tmp/existing_file.txt"]).2 = v) :=
  c6_no_decoration envA ["prog", "/tmp/existing_file.txt"] rfl

/-- C7: the run's entire observable result is a function of `args[1]`,
`args[2]` (the latter only when pkg-file mode is taken), the file-existence
test and the lookup: two runs in the same environment whose argument lists
agree at index 1, and at index 2 whenever index 1 is not an existing file,
are identical — `args[0]` and elements past index 2 never matter, and in
single-file mode `args[2]` is not consumed at all. -/
theorem c7_depends_only_on_consumed_args (env : Env) (a a' : List String)
    (h1 : a.get? 1 = a'.get? 1)
    (h2 : ∀ p, a.get? 1 = some p → env.isfile p = false →
        a.get? 2 = a'.get? 2) :
    main env a = main env a' := by
  cases hp : a.get? 1 with
  | none =>
    have hp' : a'.get? 1 = none := h1.symm.trans hp
    rw [List.get?_eq_getElem?] at hp hp'
    simp [main, getIndex, hp, hp']
  | some p =>
    have hp' : a'.get? 1 = some p := h1.symm.trans hp
    have hpE := hp; have hpE' := hp'
    rw [List.get?_eq_getElem?] at hpE hpE'
    by_cases hf : env.isfile p
    · simp [main, getIndex, hpE, hpE', hf]
    · have hf' : env.isfile p = false := eq_false_of_ne_true hf
      have h22 : a.get? 2 = a'.get? 2 := h2 p hp hf'
      cases hq : a.get? 2 with
      | none =>
        have hq' : a'.get? 2 = none := h22.symm.trans hq
        rw [List.get?_eq_getElem?] at hq hq'
        simp [main, getIndex, hpE, hpE', hf', hq, hq']
      | some f =>
        have hq' : a'.get? 2 = some f := h22.symm.trans hq
        rw [List.get?_eq_getElem?] at hq hq'
        simp [main, getIndex, hpE, hpE', hf', hq, hq']

/-- C7 witness: two concrete runs differing in `args[0]`, in an extra third
argument, and in list length, but agreeing on an existing-file `args[1]`,
produce identical results. -/
theorem c7_witness :
    main envA ["prog", "/tmp/existing_file.txt", "ignored", "extra"] =
      main envA ["other_prog", "/tmp/existing_file.txt"] :=
  c7_depends_only_on_consumed_args envA
    ["prog", "/tmp/existing_file.txt", "ignored", "extra"]
    ["other_prog", "/tmp/existing_file.txt"]
    (by decide)
    (by
      intro p hp hf
      cases hp
      exact absurd hf (by decide))

/-- C8: every successful run performs exactly one write of one string to
standard output and nothing else, except for at most the single delegated
lookup invocation in pkg-file mode: the complete effect trace is either one
write, or one lookup call followed by one write. -/
theorem c8_single_write (env : Env) (args : List String)
    (h : (main env args).1 = Except.ok ()) :
    (∃ s, (main env args).2 = [Effect.write s]) ∨
    (∃ p f s, (main env args).2 =
        [Effect.lookupCall p f, Effect.write s]) := by
  cases hp : args.get? 1 with
  | none =>
    rw [List.get?_eq_getElem?] at hp
    exfalso; simp [main, getIndex, hp] at h
  | some a1 =>
    rw [List.get?_eq_getElem?] at hp
    by_cases hf : env.isfile a1
    · left
      exact ⟨a1, by simp [main, getIndex, hp, hf, pyPrint]⟩
    · have hf' : env.isfile a1 = false := eq_false_of_ne_true hf
      cases hq : args.get? 2 with
      | none =>
        rw [List.get?_eq_getElem?] at hq
        exfalso; simp [main, getIndex, hp, hf', hq] at h
      | some a2 =>
        rw [List.get?_eq_getElem?] at hq
        cases hl : env.look_up a1 a2 with
        | ok v =>
          right
          exact ⟨a1, a2, v, by simp [main, getIndex, hp, hf', hq, hl, pyPrint]⟩
        | error e =>
          exfalso; simp [main, getIndex, hp, hf', hq, hl] at h

/-- C8 witness: a concrete successful run whose whole effect trace is a
single write. -/
theorem c8_witness :
    (∃ s, (main envA ["prog", "/tmp/existing_file.txt"]).2 =
        [Effect.write s]) ∨
    (∃ p f s, (main envA ["prog", "/tmp/existing_file.txt"]).2 =
        [Effect.lookupCall p f, Effect.write s]) :=
  c8_single_write envA ["prog", "/tmp/existing_file.txt"] rfl

/-- C9: the external lookup is invoked at most once per run, and never when
`args[1]` names an existing regular file (single-file mode). -/
theorem c9_lookup_at_most_once (env : Env) (args : List String) :
    countLookups (main env args).2 ≤ 1 ∧
    (∀ x, args.get? 1 = some x → env.isfile x = true →
        countLookups (main env args).2 = 0) := by
  cases hp : args.get? 1 with
  | none =>
    have hp' := hp; rw [List.get?_eq_getElem?] at hp'
    constructor
    · simp [main, getIndex, hp', countLookups]
    · intro x hx
      exact absurd hx (by simp)
  | some a1 =>
    have hp' := hp; rw [List.get?_eq_getElem?] at hp'
    by_cases hf : env.isfile a1
    · constructor
      · simp [main, getIndex, hp', hf, countLookups, pyPrint]
      · intro x hx hfx
        simp [main, getIndex, hp', hf, countLookups, pyPrint]
    · have hf' : env.isfile a1 = false := eq_false_of_ne_true hf
      have hzero : ∀ x : String, some a1 = some x → env.isfile x = true →
          countLookups (main env args).2 = 0 := by
        intro x hx hfx
        injection hx with hx
        rw [← hx] at hfx
        rw [hf'] at hfx
        exact absurd hfx (by simp)
      refine ⟨?_, hzero⟩
      cases hq : args.get? 2 with
      | none =>
        rw [List.get?_eq_getElem?] at hq
        simp [main, getIndex, hp', hf', hq, countLookups]
      | some a2 =>
        rw [List.get?_eq_getElem?] at hq
        cases hl : env.look_up a1 a2 with
        | ok v =>
          simp [main, getIndex, hp', hf', hq, hl, countLookups, pyPrint]
        | error e =>
          simp [main, getIndex, hp', hf', hq, hl, countLookups]

/-- C9 witness: a concrete single-file run performs no lookup invocation. -/
theorem c9_witness :
    countLookups (main envA ["prog", "/tmp/existing_file.txt"]).2 = 0 :=
  (c9_lookup_at_most_once envA ["prog", "/tmp/existing_file.txt"]).2
    "/tmp/existing_file.txt" (by decide) (by decide)

/-- C10: when pkg-file mode is taken and `args[2]` is absent, the index
error on `args[2]` is raised during argument evaluation, before the external
lookup is entered: the run terminates abnormally with no lookup invocation
in its trace. -/
theorem c10_error_before_lookup (env : Env) (args : List String) (p : String)
    (h1 : args.get? 1 = some p) (h2 : env.isfile p = false)
    (h3 : args.get? 2 = none) :
    countLookups (main env args).2 = 0 ∧
    main env args = (Except.error (Err.indexError 2), []) := by
  rw [List.get?_eq_getElem?] at h1 h3
  constructor
  · simp [main, getIndex, h1, h2, h3, countLookups]
  · simp [main, getIndex, h1, h2, h3]

/-- C10 witness: a concrete pkg-file run with a missing `args[2]`. -/
theorem c10_witness :
    countLookups (main envA ["prog", "pkg_only"]).2 = 0 ∧
    main envA ["prog", "pkg_only"] =
      (Except.error (Err.indexError 2), []) :=
  c10_error_before_lookup envA ["prog", "pkg_only"] "pkg_only"
    (by decide) (by decide) (by decide)

end Ros2GetFilepath
